import Mathlib

/-!
Shallow embedding of `src/data/generate_synthetic_data.py` from the
chf-patient-automation repository, together with proofs of the testable
properties of its specification.

Modelling conventions:
* Python floats are modelled as rationals (ℚ); `round(x, 2)` is modelled by
  `round2` (round half up at two decimals).  All concrete inputs used in
  counterexamples stay away from half-way ties, where Python's
  round-half-to-even on binary floats agrees with `round2` on ℚ.
* The shared pseudorandom stream is modelled by explicit draw records
  (`PatientRand`, `PatientDraw`): every `random.*` call of the source is a
  field, and a validity predicate records the range each call draws from.
* `datetime` values are modelled at day granularity as integers:
  `discharge_date + timedelta(days=day)` becomes integer addition, and
  `(record_date - discharge_date).days` becomes integer subtraction.
-/

/-- `INDEX_NAME = "patients"`. -/
def INDEX_NAME : String := "patients"

/-- `NUM_PATIENTS = 100`. -/
def NUM_PATIENTS : ℕ := 100

/-- `DAYS_OF_DATA = 30`. -/
def DAYS_OF_DATA : ℕ := 30

/-- The three keys of `PATIENT_PROFILES`. -/
inductive ProfileType where
  | stable
  | high_risk_weight_gain
  | non_adherent
deriving DecidableEq, Repr, Inhabited

/-- The selection weight attached to each profile in `PATIENT_PROFILES`. -/
def profileWeight : ProfileType → ℚ
  | .stable => 7/10
  | .high_risk_weight_gain => 2/10
  | .non_adherent => 1/10

/-- The fixed 4-item comorbidity vocabulary passed to `random.sample`. -/
def COMORBIDITY_VOCAB : List String :=
  ["Diabetes", "Hypertension", "Chronic Kidney Disease", "COPD"]

/-- Python `round(q, 2)`: round to two decimal places.  Modelled as round half
up on ℚ; the develop­ment only ever evaluates it away from half-way ties. -/
def round2 (q : ℚ) : ℚ := ((q * 100 + 1/2).floor : ℚ) / 100

/-- `base_patient_info` as built in `generate_all_patient_data`. -/
structure BaseInfo where
  patient_id : String
  age : ℕ
  gender : String
  comorbidities : List String
  previous_readmissions : ℕ
  discharge_date : ℤ
  profile_type : ProfileType
deriving DecidableEq, Repr, Inhabited

/-- The three symptom severity fields of a daily record. -/
structure Symptoms where
  symptom_shortness_of_breath : ℕ
  symptom_fatigue : ℕ
  symptom_swelling : ℕ
deriving DecidableEq, Repr, Inhabited

/-- One daily record as assembled in `generate_daily_time_series`:
`base_info.copy()` (the `base` component) updated with the per-day fields.
The per-day keys are disjoint from the base keys, which the structure makes
explicit. -/
structure DailyRecord where
  base : BaseInfo
  date : ℤ
  weight : ℚ
  blood_pressure_systolic : ℕ
  blood_pressure_diastolic : ℕ
  heart_rate : ℕ
  oxygen_saturation : ℚ
  medication_adherence : Bool
  weight_gain_over_3_days : ℚ
  consecutive_missed_meds : ℕ
  days_since_discharge : ℤ
  symptoms : Symptoms
deriving DecidableEq, Repr, Inhabited

/-- All values drawn from the random stream inside one call of
`generate_daily_time_series`, one field per `random.*` call site, indexed by
the day for the per-day calls. -/
structure PatientRand where
  seed_weight : ℚ
  wg_start_draw : ℕ
  na_start_draw : ℕ
  jitter : ℕ → ℚ
  gain_delta : ℕ → ℚ
  sob_base : ℕ → ℕ
  fatigue_base : ℕ → ℕ
  swelling_base : ℕ → ℕ
  sob_high : ℕ → ℕ
  swelling_high : ℕ → ℕ
  fatigue_high : ℕ → ℕ
  bp_sys : ℕ → ℕ
  bp_dia : ℕ → ℕ
  heart_rate : ℕ → ℕ
  oxygen_sat : ℕ → ℚ

/-- Each draw of `PatientRand` lies in the range of its `random.*` call in the
source.  The trigger-day draws are constrained only for the profile that
performs them (`random.randint(5, 20) if profile == ... else -1`). -/
structure ValidPatientRand (p : ProfileType) (r : PatientRand) : Prop where
  seed_mem : 150 ≤ r.seed_weight ∧ r.seed_weight ≤ 250
  wg_start_mem : p = .high_risk_weight_gain → 5 ≤ r.wg_start_draw ∧ r.wg_start_draw ≤ 20
  na_start_mem : p = .non_adherent → 5 ≤ r.na_start_draw ∧ r.na_start_draw ≤ 20
  jitter_mem : ∀ d, -(1/2) ≤ r.jitter d ∧ r.jitter d ≤ 1/2
  gain_mem : ∀ d, 1 ≤ r.gain_delta d ∧ r.gain_delta d ≤ 5/2
  sob_base_mem : ∀ d, 1 ≤ r.sob_base d ∧ r.sob_base d ≤ 3
  fatigue_base_mem : ∀ d, 1 ≤ r.fatigue_base d ∧ r.fatigue_base d ≤ 4
  swelling_base_mem : ∀ d, 1 ≤ r.swelling_base d ∧ r.swelling_base d ≤ 3
  sob_high_mem : ∀ d, 4 ≤ r.sob_high d ∧ r.sob_high d ≤ 8
  swelling_high_mem : ∀ d, 4 ≤ r.swelling_high d ∧ r.swelling_high d ≤ 8
  fatigue_high_mem : ∀ d, 5 ≤ r.fatigue_high d ∧ r.fatigue_high d ≤ 9
  bp_sys_mem : ∀ d, 110 ≤ r.bp_sys d ∧ r.bp_sys d ≤ 160
  bp_dia_mem : ∀ d, 70 ≤ r.bp_dia d ∧ r.bp_dia d ≤ 100
  heart_rate_mem : ∀ d, 60 ≤ r.heart_rate d ∧ r.heart_rate d ≤ 100
  oxygen_mem : ∀ d, 92 ≤ r.oxygen_sat d ∧ r.oxygen_sat d ≤ 99

/-- `weight_gain_start_day = random.randint(5, 20) if profile_type ==
"high_risk_weight_gain" else -1`. -/
def weight_gain_start_day (base : BaseInfo) (r : PatientRand) : ℤ :=
  if base.profile_type = .high_risk_weight_gain then (r.wg_start_draw : ℤ) else -1

/-- `non_adherent_start_day = random.randint(5, 20) if profile_type ==
"non_adherent" else -1`. -/
def non_adherent_start_day (base : BaseInfo) (r : PatientRand) : ℤ :=
  if base.profile_type = .non_adherent then (r.na_start_draw : ℤ) else -1

/-- The guard of the weight-gain branch:
`base_info["profile_type"] == "high_risk_weight_gain" and day >= weight_gain_start_day`. -/
def wgActive (base : BaseInfo) (r : PatientRand) (day : ℕ) : Bool :=
  decide (base.profile_type = .high_risk_weight_gain ∧
    weight_gain_start_day base r ≤ (day : ℤ))

/-- The guard of the non-adherence branch:
`base_info["profile_type"] == "non_adherent" and day >= non_adherent_start_day`. -/
def naActive (base : BaseInfo) (r : PatientRand) (day : ℕ) : Bool :=
  decide (base.profile_type = .non_adherent ∧
    non_adherent_start_day base r ≤ (day : ℤ))

/-- The mutable state of the `for day in range(DAYS_OF_DATA)` loop:
`records`, `daily_weights`, `daily_adherence` and `current_weight`. -/
structure SimState where
  records : List DailyRecord
  daily_weights : List ℚ
  daily_adherence : List Bool
  current_weight : ℚ

/-- Loop state just before the first iteration:
the three lists empty, `current_weight = random.uniform(150.0, 250.0)`. -/
def simInit (r : PatientRand) : SimState :=
  { records := [], daily_weights := [], daily_adherence := [],
    current_weight := r.seed_weight }

/-- One iteration of the day loop of `generate_daily_time_series`, translated
statement by statement from the source. -/
def simStep (base : BaseInfo) (r : PatientRand) (st : SimState) (day : ℕ) : SimState :=
  let record_date : ℤ := base.discharge_date + (day : ℤ)
  let days_since_discharge : ℤ := record_date - base.discharge_date
  let medication_adherence : Bool := true
  let current_weight : ℚ := st.current_weight + r.jitter day
  let symptoms : Symptoms :=
    { symptom_shortness_of_breath := r.sob_base day,
      symptom_fatigue := r.fatigue_base day,
      symptom_swelling := r.swelling_base day }
  let current_weight : ℚ :=
    if wgActive base r day then current_weight + r.gain_delta day else current_weight
  let symptoms : Symptoms :=
    if wgActive base r day then
      { symptoms with symptom_shortness_of_breath := r.sob_high day,
                      symptom_swelling := r.swelling_high day }
    else symptoms
  let medication_adherence : Bool :=
    if naActive base r day then false else medication_adherence
  let symptoms : Symptoms :=
    if naActive base r day then { symptoms with symptom_fatigue := r.fatigue_high day }
    else symptoms
  let daily_weights : List ℚ := st.daily_weights ++ [current_weight]
  let daily_adherence : List Bool := st.daily_adherence ++ [medication_adherence]
  let weight_gain_over_3_days : ℚ :=
    if 3 ≤ day then current_weight - daily_weights.getD (day - 3) 0 else 0
  let consecutive_missed_meds : ℕ :=
    if medication_adherence = false ∧ 1 ≤ day ∧
        daily_adherence.getD (day - 1) true = false then 2 else 0
  let daily_record : DailyRecord :=
    { base := base,
      date := record_date,
      weight := round2 current_weight,
      blood_pressure_systolic := r.bp_sys day,
      blood_pressure_diastolic := r.bp_dia day,
      heart_rate := r.heart_rate day,
      oxygen_saturation := round2 (r.oxygen_sat day),
      medication_adherence := medication_adherence,
      weight_gain_over_3_days := round2 weight_gain_over_3_days,
      consecutive_missed_meds := consecutive_missed_meds,
      days_since_discharge := days_since_discharge,
      symptoms := symptoms }
  { records := st.records ++ [daily_record],
    daily_weights := daily_weights,
    daily_adherence := daily_adherence,
    current_weight := current_weight }

/-- The loop state after the first `n` iterations of the day loop. -/
def runDays (base : BaseInfo) (r : PatientRand) : ℕ → SimState
  | 0 => simInit r
  | n + 1 => simStep base r (runDays base r n) n

/-- `generate_daily_time_series(base_info)`: the `records` list after all
`DAYS_OF_DATA` iterations. -/
def generate_daily_time_series (base : BaseInfo) (r : PatientRand) : List DailyRecord :=
  (runDays base r DAYS_OF_DATA).records

/-- All values drawn from the random stream for one patient in
`generate_all_patient_data`: the base-record draws plus the nested
`generate_daily_time_series` draws.  `random.sample(vocab, k)` is modelled by
the sample size `comorbid_k` together with an index choice `comorbid_pick`
(injective on `[0, k)` for a valid draw). -/
structure PatientDraw where
  patient_id : String
  age : ℕ
  gender : String
  comorbid_k : ℕ
  comorbid_pick : ℕ → ℕ
  previous_readmissions : ℕ
  discharge_offset : ℕ
  profile_type : ProfileType
  rand : PatientRand

/-- `random.sample(["Diabetes", ...], k)` modelled as the image of an index
choice into the fixed vocabulary. -/
def sampleComorbidities (pick : ℕ → ℕ) (k : ℕ) : List String :=
  ((List.range k).map pick).map (fun i => COMORBIDITY_VOCAB.getD i "")

/-- Each base-record draw lies in the range of its call in the source:
`randint(65,95)`, `random.choice(["Male","Female"])`,
`random.sample(vocab, k=randint(0,3))` (so `pick` is an injection of `[0,k)`
into `[0,4)`), `randint(0,5)`, `randint(30,90)`, and a valid nested
`PatientRand` for the chosen profile. -/
structure ValidPatientDraw (d : PatientDraw) : Prop where
  age_mem : 65 ≤ d.age ∧ d.age ≤ 95
  gender_mem : d.gender = "Male" ∨ d.gender = "Female"
  k_mem : d.comorbid_k ≤ 3
  pick_lt : ∀ i, i < d.comorbid_k → d.comorbid_pick i < 4
  pick_inj : ∀ i j, i < d.comorbid_k → j < d.comorbid_k →
    d.comorbid_pick i = d.comorbid_pick j → i = j
  readmissions_mem : d.previous_readmissions ≤ 5
  offset_mem : 30 ≤ d.discharge_offset ∧ d.discharge_offset ≤ 90
  rand_valid : ValidPatientRand d.profile_type d.rand

/-- `base_patient_info` for one patient, built from its draws;
`genTime` models `datetime.now()` at day granularity. -/
def baseOf (genTime : ℤ) (d : PatientDraw) : BaseInfo :=
  { patient_id := d.patient_id,
    age := d.age,
    gender := d.gender,
    comorbidities := sampleComorbidities d.comorbid_pick d.comorbid_k,
    previous_readmissions := d.previous_readmissions,
    discharge_date := genTime - (d.discharge_offset : ℤ),
    profile_type := d.profile_type }

/-- `generate_all_patient_data()`: for each of `NUM_PATIENTS` patients build
the base record and extend the output with its 30 daily records. -/
def generate_all_patient_data (genTime : ℤ) (draws : ℕ → PatientDraw) :
    List DailyRecord :=
  ((List.range NUM_PATIENTS).map (fun i =>
    generate_daily_time_series (baseOf genTime (draws i)) (draws i).rand)).flatten

/-- Python truthiness of an environment lookup: `None` and the empty string
are falsy. -/
def envTruthy : Option String → Bool
  | none => false
  | some s => !(s = "")

/-- The observable outcome of the `__main__` block. -/
structure MainResult where
  records : List DailyRecord
  ingestion_attempted : Bool
  exit_code : ℕ
deriving Repr

/-- The `__main__` block: generate all data, then either skip ingestion with
`sys.exit(0)` when `ELASTICSEARCH_ENDPOINT` or `API_KEY` is not truthy, or
attempt ingestion (whose faults `ingest_data` catches, so the process still
exits 0). -/
def mainRun (endpoint api_key : Option String) (genTime : ℤ)
    (draws : ℕ → PatientDraw) : MainResult :=
  let all_data := generate_all_patient_data genTime draws
  if envTruthy endpoint && envTruthy api_key then
    { records := all_data, ingestion_attempted := true, exit_code := 0 }
  else
    { records := all_data, ingestion_attempted := false, exit_code := 0 }

/-! ## Closed forms for the day loop -/

/-- Closed form of today's `medication_adherence` value. -/
def adherenceAt (base : BaseInfo) (r : PatientRand) (day : ℕ) : Bool :=
  if naActive base r day then false else true

/-- The total weight change applied on `day`: baseline jitter plus, when the
weight-gain branch is active, the extra gain delta. -/
def dayDelta (base : BaseInfo) (r : PatientRand) (day : ℕ) : ℚ :=
  r.jitter day + if wgActive base r day then r.gain_delta day else 0

/-- Closed form of the running (pre-rounding) `current_weight` at the end of
iteration `day`, i.e. the value appended to `daily_weights` on that day. -/
def weightAt (base : BaseInfo) (r : PatientRand) : ℕ → ℚ
  | 0 => r.seed_weight + dayDelta base r 0
  | d + 1 => weightAt base r d + dayDelta base r (d + 1)

/-- `current_weight` before iteration `n` starts. -/
def weightLast (base : BaseInfo) (r : PatientRand) : ℕ → ℚ
  | 0 => r.seed_weight
  | n + 1 => weightAt base r n

/-- Closed form of `symptom_shortness_of_breath` on `day`. -/
def sobAt (base : BaseInfo) (r : PatientRand) (day : ℕ) : ℕ :=
  if wgActive base r day then r.sob_high day else r.sob_base day

/-- Closed form of `symptom_swelling` on `day`. -/
def swellingAt (base : BaseInfo) (r : PatientRand) (day : ℕ) : ℕ :=
  if wgActive base r day then r.swelling_high day else r.swelling_base day

/-- Closed form of `symptom_fatigue` on `day`. -/
def fatigueAt (base : BaseInfo) (r : PatientRand) (day : ℕ) : ℕ :=
  if naActive base r day then r.fatigue_high day else r.fatigue_base day

/-- Closed form of the daily record produced on `day`. -/
def recordAt (base : BaseInfo) (r : PatientRand) (day : ℕ) : DailyRecord :=
  { base := base,
    date := base.discharge_date + (day : ℤ),
    weight := round2 (weightAt base r day),
    blood_pressure_systolic := r.bp_sys day,
    blood_pressure_diastolic := r.bp_dia day,
    heart_rate := r.heart_rate day,
    oxygen_saturation := round2 (r.oxygen_sat day),
    medication_adherence := adherenceAt base r day,
    weight_gain_over_3_days :=
      round2 (if 3 ≤ day then weightAt base r day - weightAt base r (day - 3) else 0),
    consecutive_missed_meds :=
      if adherenceAt base r day = false ∧ 1 ≤ day ∧
          adherenceAt base r (day - 1) = false then 2 else 0,
    days_since_discharge := (day : ℤ),
    symptoms :=
      { symptom_shortness_of_breath := sobAt base r day,
        symptom_fatigue := fatigueAt base r day,
        symptom_swelling := swellingAt base r day } }

/-- `(List.range (n+1)).map f` grows by one element at the end. -/
theorem map_range_succ {α : Type} (f : ℕ → α) (n : ℕ) :
    (List.range (n + 1)).map f = (List.range n).map f ++ [f n] := by
  rw [List.range_succ, List.map_append]
  rfl

/-- Reading `(List.range n).map f` at an in-bounds index. -/
theorem getD_map_range {α : Type} (f : ℕ → α) (a : α) {n i : ℕ} (h : i < n) :
    ((List.range n).map f).getD i a = f i := by
  rw [List.getD_eq_getElem?_getD, List.getElem?_map, List.getElem?_range h]
  rfl

/-- The two-step weight update of one loop iteration equals `weightAt`. -/
theorem weightLast_step (base : BaseInfo) (r : PatientRand) (n : ℕ) :
    (if wgActive base r n then weightLast base r n + r.jitter n + r.gain_delta n
     else weightLast base r n + r.jitter n) = weightAt base r n := by
  have h : weightLast base r n + dayDelta base r n = weightAt base r n := by
    cases n with
    | zero => rw [weightLast, weightAt]
    | succ m => rw [weightLast, weightAt]
  rw [← h, dayDelta]
  by_cases hp : wgActive base r n = true
  · rw [if_pos hp, if_pos hp]
    ring
  · rw [if_neg hp, if_neg hp]
    ring


/-- Loop invariant of `generate_daily_time_series`: after `n` iterations the
state consists of the closed-form records, weights and adherence flags for
days `0..n-1`, with `current_weight` the last weight. -/
theorem runDays_eq (base : BaseInfo) (r : PatientRand) (n : ℕ) :
    runDays base r n =
      { records := (List.range n).map (recordAt base r),
        daily_weights := (List.range n).map (weightAt base r),
        daily_adherence := (List.range n).map (adherenceAt base r),
        current_weight := weightLast base r n } := by
  induction n with
  | zero => rfl
  | succ n ih =>
    rw [runDays, ih]
    simp only [simStep]
    rw [weightLast_step base r n]
    have hWeights : (List.range n).map (weightAt base r) ++ [weightAt base r n] =
        (List.range (n + 1)).map (weightAt base r) := (map_range_succ _ n).symm
    have hAdh : (List.range n).map (adherenceAt base r) ++
          [if naActive base r n then false else true] =
        (List.range (n + 1)).map (adherenceAt base r) := by
      rw [map_range_succ (adherenceAt base r) n, adherenceAt]
    rw [hWeights, hAdh, map_range_succ (recordAt base r) n]
    simp only [weightLast]
    congr 1
    congr 1
    rw [getD_map_range (weightAt base r) 0
        (show n - 3 < n + 1 from Nat.lt_succ_of_le (Nat.sub_le n 3)),
      getD_map_range (adherenceAt base r) true
        (show n - 1 < n + 1 from Nat.lt_succ_of_le (Nat.sub_le n 1))]
    by_cases hna : naActive base r n = true <;>
      by_cases hwg : wgActive base r n = true <;>
        simp [recordAt, adherenceAt, sobAt, fatigueAt, swellingAt, hna, hwg]

/-- The generated daily series is exactly the list of closed-form records for
days `0..29`. -/
theorem generate_daily_time_series_eq (base : BaseInfo) (r : PatientRand) :
    generate_daily_time_series base r =
      (List.range DAYS_OF_DATA).map (recordAt base r) := by
  rw [generate_daily_time_series, runDays_eq]

/-- One patient's series always holds exactly `DAYS_OF_DATA` records. -/
theorem generate_daily_length (base : BaseInfo) (r : PatientRand) :
    (generate_daily_time_series base r).length = DAYS_OF_DATA := by
  rw [generate_daily_time_series_eq, List.length_map, List.length_range]

/-- Reading one patient's series at an in-bounds day index. -/
theorem generate_daily_getD (base : BaseInfo) (r : PatientRand) {d : ℕ}
    (h : d < DAYS_OF_DATA) (a : DailyRecord) :
    (generate_daily_time_series base r).getD d a = recordAt base r d := by
  rw [generate_daily_time_series_eq, getD_map_range _ _ h]

/-- Length of a flattened list of equal-length blocks. -/
theorem flatten_length_fixed {α : Type} (len : ℕ) :
    ∀ L : List (List α), (∀ xs ∈ L, xs.length = len) →
      L.flatten.length = L.length * len := by
  intro L
  induction L with
  | nil => intro _; simp
  | cons xs rest ih =>
    intro h
    rw [List.flatten_cons, List.length_append, ih (fun ys hy => h ys (by simp [hy])),
      h xs (by simp), List.length_cons]
    ring

/-- Reading a flattened list of equal-length blocks at `p * len + d` reads
block `p` at offset `d`. -/
theorem flatten_getD_fixed {α : Type} (len : ℕ) (a : α) :
    ∀ L : List (List α), (∀ xs ∈ L, xs.length = len) →
      ∀ p d : ℕ, p < L.length → d < len →
        L.flatten.getD (p * len + d) a = (L.getD p []).getD d a := by
  intro L
  induction L with
  | nil =>
    intro _ p d hp _
    exact absurd hp (by simp)
  | cons xs rest ih =>
    intro h p d hp hd
    have hx : xs.length = len := h xs (by simp)
    cases p with
    | zero =>
      have hdx : d < xs.length := by rw [hx]; exact hd
      rw [List.flatten_cons, Nat.zero_mul, Nat.zero_add, List.getD_eq_getElem?_getD,
        List.getElem?_append_left hdx, ← List.getD_eq_getElem?_getD, List.getD_cons_zero]
    | succ p =>
      have hidx : (p + 1) * len + d = xs.length + (p * len + d) := by
        rw [hx]; ring
      rw [List.flatten_cons, List.getD_eq_getElem?_getD, hidx,
        List.getElem?_append_right (Nat.le_add_right _ _), Nat.add_sub_cancel_left,
        ← List.getD_eq_getElem?_getD, List.getD_cons_succ]
      exact ih (fun ys hy => h ys (by simp [hy])) p d (Nat.lt_of_succ_lt_succ hp) hd

/-- Each block of the assembled dataset has length `DAYS_OF_DATA`. -/
theorem generate_all_blocks_length (genTime : ℤ) (draws : ℕ → PatientDraw) :
    ∀ xs ∈ (List.range NUM_PATIENTS).map (fun i =>
        generate_daily_time_series (baseOf genTime (draws i)) (draws i).rand),
      xs.length = DAYS_OF_DATA := by
  intro xs hxs
  obtain ⟨i, _, rfl⟩ := List.mem_map.mp hxs
  exact generate_daily_length _ _

/-- The assembled dataset holds exactly `NUM_PATIENTS * DAYS_OF_DATA` records. -/
theorem generate_all_length (genTime : ℤ) (draws : ℕ → PatientDraw) :
    (generate_all_patient_data genTime draws).length = NUM_PATIENTS * DAYS_OF_DATA := by
  rw [generate_all_patient_data,
    flatten_length_fixed DAYS_OF_DATA _ (generate_all_blocks_length genTime draws),
    List.length_map, List.length_range]

/-- Reading the assembled dataset at `p * DAYS_OF_DATA + d` gives day `d` of
patient `p`. -/
theorem generate_all_getD (genTime : ℤ) (draws : ℕ → PatientDraw) {p d : ℕ}
    (hp : p < NUM_PATIENTS) (hd : d < DAYS_OF_DATA) (a : DailyRecord) :
    (generate_all_patient_data genTime draws).getD (p * DAYS_OF_DATA + d) a =
      recordAt (baseOf genTime (draws p)) (draws p).rand d := by
  rw [generate_all_patient_data,
    flatten_getD_fixed DAYS_OF_DATA a _ (generate_all_blocks_length genTime draws)
      p d (by simpa using hp) hd,
    getD_map_range _ [] hp]
  exact generate_daily_getD _ _ hd a

/-! ## Concrete inputs used by witnesses and the counterexample -/

/-- A simple draw record with every value inside its range, valid for any
profile (both trigger-day draws are in `[5, 20]`). -/
def stdRand : PatientRand :=
  { seed_weight := 200, wg_start_draw := 6, na_start_draw := 7,
    jitter := fun _ => 0, gain_delta := fun _ => 1,
    sob_base := fun _ => 2, fatigue_base := fun _ => 2, swelling_base := fun _ => 2,
    sob_high := fun _ => 5, swelling_high := fun _ => 5, fatigue_high := fun _ => 6,
    bp_sys := fun _ => 120, bp_dia := fun _ => 80, heart_rate := fun _ => 70,
    oxygen_sat := fun _ => 95 }

theorem stdRand_valid (p : ProfileType) : ValidPatientRand p stdRand := by
  refine ⟨?_, ?_, ?_, ?_, ?_, ?_, ?_, ?_, ?_, ?_, ?_, ?_, ?_, ?_, ?_⟩ <;>
    first
      | (intro _; exact ⟨by norm_num [stdRand], by norm_num [stdRand]⟩)
      | exact ⟨by norm_num [stdRand], by norm_num [stdRand]⟩

/-- A concrete stable-profile base record. -/
def stBase : BaseInfo :=
  { patient_id := "p-stable", age := 70, gender := "Male", comorbidities := [],
    previous_readmissions := 0, discharge_date := 0, profile_type := .stable }

/-- A concrete non-adherent base record. -/
def naBase : BaseInfo :=
  { patient_id := "p-na", age := 80, gender := "Female", comorbidities := [],
    previous_readmissions := 1, discharge_date := 0,
    profile_type := .non_adherent }

/-- A concrete high-risk-weight-gain base record. -/
def hrBase : BaseInfo :=
  { patient_id := "p-hr", age := 75, gender := "Male", comorbidities := [],
    previous_readmissions := 2, discharge_date := 0,
    profile_type := .high_risk_weight_gain }

/-- A concrete full per-patient draw (stable profile). -/
def stdDraw : PatientDraw :=
  { patient_id := "p-all", age := 70, gender := "Male", comorbid_k := 2,
    comorbid_pick := fun i => i, previous_readmissions := 0,
    discharge_offset := 30, profile_type := .stable, rand := stdRand }

theorem stdDraw_valid : ValidPatientDraw stdDraw := by
  refine ⟨?_, ?_, ?_, ?_, ?_, ?_, ?_, ?_⟩
  · exact ⟨by norm_num [stdDraw], by norm_num [stdDraw]⟩
  · exact Or.inl rfl
  · norm_num [stdDraw]
  · intro i hi
    simp only [stdDraw] at hi ⊢
    omega
  · intro i j _ _ hij
    exact hij
  · norm_num [stdDraw]
  · exact ⟨by norm_num [stdDraw], by norm_num [stdDraw]⟩
  · exact stdRand_valid _

/-- Draws exhibiting the rounding mismatch of `weight_gain_over_3_days`:
seed weight `150.004`, one jitter of `+0.002` on day 1, all other jitters 0. -/
def cexRand : PatientRand :=
  { seed_weight := 150 + 1/250,
    wg_start_draw := 6, na_start_draw := 7,
    jitter := fun d => if d = 1 then 1/500 else 0,
    gain_delta := fun _ => 1,
    sob_base := fun _ => 2, fatigue_base := fun _ => 2, swelling_base := fun _ => 2,
    sob_high := fun _ => 5, swelling_high := fun _ => 5, fatigue_high := fun _ => 6,
    bp_sys := fun _ => 120, bp_dia := fun _ => 80, heart_rate := fun _ => 70,
    oxygen_sat := fun _ => 95 }

theorem cexRand_valid (p : ProfileType) : ValidPatientRand p cexRand := by
  refine ⟨⟨by norm_num [cexRand], by norm_num [cexRand]⟩, ?_, ?_, ?_, ?_, ?_, ?_, ?_,
    ?_, ?_, ?_, ?_, ?_, ?_, ?_⟩ <;>
    first
      | (intro d; by_cases hd : d = 1 <;> simp [cexRand, hd] <;> norm_num)
      | (intro _; exact ⟨by norm_num [cexRand], by norm_num [cexRand]⟩)

/-! ## Supporting lemmas for the claims -/

/-- Reading `COMORBIDITY_VOCAB` is injective on indices `0..3`. -/
theorem vocab_getD_inj :
    ∀ a < 4, ∀ b < 4, COMORBIDITY_VOCAB.getD a "" = COMORBIDITY_VOCAB.getD b "" → a = b := by
  decide

/-- Reading `COMORBIDITY_VOCAB` at an index `0..3` yields a vocabulary item. -/
theorem vocab_getD_mem : ∀ a < 4, COMORBIDITY_VOCAB.getD a "" ∈ COMORBIDITY_VOCAB := by
  decide

/-- A valid `random.sample` draw yields at most 3 items, without duplicates,
all from the vocabulary. -/
theorem sampleComorbidities_ok (pick : ℕ → ℕ) (k : ℕ) (hk : k ≤ 3)
    (hlt : ∀ i, i < k → pick i < 4)
    (hinj : ∀ i j, i < k → j < k → pick i = pick j → i = j) :
    (sampleComorbidities pick k).length ≤ 3 ∧ (sampleComorbidities pick k).Nodup ∧
      ∀ x ∈ sampleComorbidities pick k, x ∈ COMORBIDITY_VOCAB := by
  refine ⟨?_, ?_, ?_⟩
  · rw [sampleComorbidities, List.length_map, List.length_map, List.length_range]
    exact hk
  · rw [sampleComorbidities]
    apply List.Nodup.map_on
    · intro a ha b hb hab
      obtain ⟨i, hi, rfl⟩ := List.mem_map.mp ha
      obtain ⟨j, hj, rfl⟩ := List.mem_map.mp hb
      have hi' : i < k := List.mem_range.mp hi
      have hj' : j < k := List.mem_range.mp hj
      rw [vocab_getD_inj (pick i) (hlt i hi') (pick j) (hlt j hj') hab]
    · apply List.Nodup.map_on
      · intro i hi j hj hij
        exact hinj i j (List.mem_range.mp hi) (List.mem_range.mp hj) hij
      · exact List.nodup_range k
  · intro x hx
    rw [sampleComorbidities] at hx
    obtain ⟨y, hy, rfl⟩ := List.mem_map.mp hx
    obtain ⟨j, hj, rfl⟩ := List.mem_map.mp hy
    exact vocab_getD_mem (pick j) (hlt j (List.mem_range.mp hj))

/-- The running weight satisfies the one-day recurrence. -/
theorem weightAt_recurrence (base : BaseInfo) (r : PatientRand) (n : ℕ) :
    weightAt base r n = weightLast base r n + dayDelta base r n := by
  cases n with
  | zero => rw [weightLast, weightAt]
  | succ m => rw [weightLast, weightAt]

/-- For a non-adherent patient, today's adherence is governed by the trigger
day alone. -/
theorem adherenceAt_na (base : BaseInfo) (r : PatientRand)
    (hp : base.profile_type = .non_adherent) (d : ℕ) :
    adherenceAt base r d = if r.na_start_draw ≤ d then false else true := by
  rw [adherenceAt, naActive, non_adherent_start_day, if_pos hp]
  by_cases h : r.na_start_draw ≤ d
  · rw [if_pos h, if_pos (by simp [hp, Nat.cast_le.mpr h])]
  · rw [if_neg h, if_neg (by simp [hp]; exact_mod_cast Nat.lt_of_not_le h)]

/-- For any profile other than non-adherent, the non-adherence branch never
fires. -/
theorem naActive_of_ne (base : BaseInfo) (r : PatientRand)
    (hp : base.profile_type ≠ .non_adherent) (d : ℕ) :
    naActive base r d = false := by
  simp [naActive, hp]

/-- For a high-risk patient, today's swelling draw is governed by the trigger
day alone. -/
theorem swellingAt_hr (base : BaseInfo) (r : PatientRand)
    (hp : base.profile_type = .high_risk_weight_gain) (d : ℕ) :
    swellingAt base r d =
      if r.wg_start_draw ≤ d then r.swelling_high d else r.swelling_base d := by
  rw [swellingAt, wgActive, weight_gain_start_day, if_pos hp]
  by_cases h : r.wg_start_draw ≤ d
  · rw [if_pos h, if_pos (by simp [hp, Nat.cast_le.mpr h])]
  · rw [if_neg h, if_neg (by simp [hp]; exact_mod_cast Nat.lt_of_not_le h)]

/-- Batteries' `Rat.floor` agrees with the floor of the `FloorRing` instance. -/
theorem rat_floor_eq_intFloor (q : ℚ) : q.floor = ⌊q⌋ := by
  rw [Rat.floor_def', Rat.floor_def]

/-- Evaluation rule for `round2` away from the floor computation. -/
theorem round2_eval (q : ℚ) (z : ℤ) (h1 : (z : ℚ) ≤ q * 100 + 1/2)
    (h2 : q * 100 + 1/2 < z + 1) : round2 q = (z : ℚ) / 100 := by
  rw [round2]
  have h : (q * 100 + 1/2).floor = z := by
    rw [rat_floor_eq_intFloor]
    exact Int.floor_eq_iff.mpr ⟨h1, h2⟩
  rw [h]

/-! ## The claims -/

/-- Claim C1 as stated is false: `weight_gain_over_3_days` is the rounding of
the difference of the internal running weights, which can differ from the
difference of the separately rounded stored `weight` fields.  Concretely, for
the valid stable patient `stBase`/`cexRand` (seed weight 150.004, a single
+0.002 jitter on day 1), day 3 stores `weight_gain_over_3_days = 0` while
`weight[3] - weight[0] = 150.01 - 150.00 = 0.01`. -/
theorem weight_gain_over_3_days_rounding_cex :
    ValidPatientRand stBase.profile_type cexRand ∧
      ((generate_daily_time_series stBase cexRand).getD 3 default).weight_gain_over_3_days ≠
        ((generate_daily_time_series stBase cexRand).getD 3 default).weight -
          ((generate_daily_time_series stBase cexRand).getD 0 default).weight := by
  refine ⟨cexRand_valid _, ?_⟩
  rw [generate_daily_getD stBase cexRand
      (show (3 : ℕ) < DAYS_OF_DATA by norm_num [DAYS_OF_DATA]) default,
    generate_daily_getD stBase cexRand
      (show (0 : ℕ) < DAYS_OF_DATA by norm_num [DAYS_OF_DATA]) default]
  have hwg : ∀ d, wgActive stBase cexRand d = false := by
    intro d
    simp [wgActive, stBase]
  have hdel : ∀ d, dayDelta stBase cexRand d = cexRand.jitter d := by
    intro d
    rw [dayDelta, hwg d]
    simp
  have w0 : weightAt stBase cexRand 0 = 150 + 1/250 := by
    simp only [weightAt, hdel]
    norm_num [cexRand]
  have w3 : weightAt stBase cexRand 3 = 150 + 1/250 + 1/500 := by
    simp only [weightAt, hdel]
    norm_num [cexRand]
  have hfield : (recordAt stBase cexRand 3).weight_gain_over_3_days = 0 := by
    show round2 (if 3 ≤ 3 then
        weightAt stBase cexRand 3 - weightAt stBase cexRand (3 - 3) else 0) = 0
    rw [if_pos (by norm_num), show (3 : ℕ) - 3 = 0 from rfl, w3, w0,
      round2_eval _ 0 (by norm_num) (by norm_num)]
    norm_num
  have hw3 : (recordAt stBase cexRand 3).weight = 15001/100 := by
    show round2 (weightAt stBase cexRand 3) = 15001/100
    rw [w3, round2_eval _ 15001 (by norm_num) (by norm_num)]
    norm_num
  have hw0 : (recordAt stBase cexRand 0).weight = 150 := by
    show round2 (weightAt stBase cexRand 0) = 150
    rw [w0, round2_eval _ 15000 (by norm_num) (by norm_num)]
    norm_num
  rw [hfield, hw3, hw0]
  norm_num

/-- Claim C1 (amended): for every generated sequence and every day `d`,
`weight_gain_over_3_days` equals 0 when `d < 3` and equals the 2-decimal
rounding of `weightAt d - weightAt (d-3)` — the difference of the internal
pre-rounding running weights of day `d` and day `d-3` — when `d ≥ 3`.  (It is
not in general equal to the difference of the rounded stored `weight` fields.) -/
theorem weight_gain_over_3_days_spec (base : BaseInfo) (r : PatientRand) (d : ℕ)
    (hd : d < DAYS_OF_DATA) :
    ((generate_daily_time_series base r).getD d default).weight_gain_over_3_days =
      if 3 ≤ d then round2 (weightAt base r d - weightAt base r (d - 3)) else 0 := by
  rw [generate_daily_getD base r hd default]
  show round2 (if 3 ≤ d then weightAt base r d - weightAt base r (d - 3) else 0) = _
  by_cases h3 : 3 ≤ d
  · rw [if_pos h3, if_pos h3]
  · rw [if_neg h3, if_neg h3]
    rw [round2_eval 0 0 (by norm_num) (by norm_num)]
    norm_num

/-- Witness: the amended C1 instantiated at day 3 of the concrete patient
`stBase`/`cexRand`. -/
theorem weight_gain_over_3_days_spec_witness :
    ((generate_daily_time_series stBase cexRand).getD 3 default).weight_gain_over_3_days =
      if 3 ≤ 3 then round2 (weightAt stBase cexRand 3 - weightAt stBase cexRand (3 - 3))
      else 0 :=
  weight_gain_over_3_days_spec stBase cexRand 3 (by norm_num [DAYS_OF_DATA])

/-- Claim C2: on every generated sequence, `consecutive_missed_meds` equals 2
exactly when `d ≥ 1` and the stored `medication_adherence` is false on both
day `d` and day `d-1`, and equals 0 in every other case (so it never
exceeds 2). -/
theorem consecutive_missed_meds_spec (base : BaseInfo) (r : PatientRand) (d : ℕ)
    (hd : d < DAYS_OF_DATA) :
    ((generate_daily_time_series base r).getD d default).consecutive_missed_meds =
      if 1 ≤ d ∧
          ((generate_daily_time_series base r).getD d default).medication_adherence =
            false ∧
          ((generate_daily_time_series base r).getD (d - 1) default).medication_adherence =
            false then 2 else 0 := by
  rw [generate_daily_getD base r hd default,
    generate_daily_getD base r (lt_of_le_of_lt (Nat.sub_le d 1) hd) default]
  show (if adherenceAt base r d = false ∧ 1 ≤ d ∧ adherenceAt base r (d - 1) = false
      then 2 else 0) = _
  by_cases h1 : adherenceAt base r d = false <;> by_cases h2 : 1 ≤ d <;>
    by_cases h3 : adherenceAt base r (d - 1) = false <;>
      simp [recordAt, h1, h2, h3]

/-- Witness: C2 instantiated at day 8 of the concrete non-adherent patient
`naBase`/`stdRand`. -/
theorem consecutive_missed_meds_spec_witness :
    ((generate_daily_time_series naBase stdRand).getD 8 default).consecutive_missed_meds =
      if 1 ≤ 8 ∧
          ((generate_daily_time_series naBase stdRand).getD 8 default).medication_adherence =
            false ∧
          ((generate_daily_time_series naBase stdRand).getD (8 - 1) default).medication_adherence =
            false then 2 else 0 :=
  consecutive_missed_meds_spec naBase stdRand 8 (by norm_num [DAYS_OF_DATA])

/-- Claim C3: every generated non-adherent patient has a trigger day `t` in
`[5, 20]` with `medication_adherence` false on every day `≥ t` and true on
every day `< t`. -/
theorem non_adherent_trigger_spec (base : BaseInfo) (r : PatientRand)
    (hp : base.profile_type = .non_adherent)
    (hv : ValidPatientRand base.profile_type r) :
    ∃ t, 5 ≤ t ∧ t ≤ 20 ∧ ∀ d, d < DAYS_OF_DATA →
      (t ≤ d →
        ((generate_daily_time_series base r).getD d default).medication_adherence =
          false) ∧
      (d < t →
        ((generate_daily_time_series base r).getD d default).medication_adherence =
          true) := by
  obtain ⟨h5, h20⟩ := hv.na_start_mem hp
  refine ⟨r.na_start_draw, h5, h20, ?_⟩
  intro d hd
  rw [generate_daily_getD base r hd default]
  have hadh : (recordAt base r d).medication_adherence = adherenceAt base r d := rfl
  rw [hadh, adherenceAt_na base r hp d]
  constructor
  · intro hle
    rw [if_pos hle]
  · intro hlt
    rw [if_neg (Nat.not_le.mpr hlt)]

/-- Witness: C3 instantiated at the concrete non-adherent patient
`naBase`/`stdRand`. -/
theorem non_adherent_trigger_spec_witness :
    ∃ t, 5 ≤ t ∧ t ≤ 20 ∧ ∀ d, d < DAYS_OF_DATA →
      (t ≤ d →
        ((generate_daily_time_series naBase stdRand).getD d default).medication_adherence =
          false) ∧
      (d < t →
        ((generate_daily_time_series naBase stdRand).getD d default).medication_adherence =
          true) :=
  non_adherent_trigger_spec naBase stdRand rfl (stdRand_valid _)

/-- Claim C4: every generated high-risk-weight-gain patient has a trigger day
`t` in `[5, 20]` with `symptom_swelling` in `[4, 8]` on every day `≥ t` and in
`[1, 3]` on every day `< t`. -/
theorem high_risk_swelling_spec (base : BaseInfo) (r : PatientRand)
    (hp : base.profile_type = .high_risk_weight_gain)
    (hv : ValidPatientRand base.profile_type r) :
    ∃ t, 5 ≤ t ∧ t ≤ 20 ∧ ∀ d, d < DAYS_OF_DATA →
      (t ≤ d →
        4 ≤ ((generate_daily_time_series base r).getD d
              default).symptoms.symptom_swelling ∧
        ((generate_daily_time_series base r).getD d
            default).symptoms.symptom_swelling ≤ 8) ∧
      (d < t →
        1 ≤ ((generate_daily_time_series base r).getD d
              default).symptoms.symptom_swelling ∧
        ((generate_daily_time_series base r).getD d
            default).symptoms.symptom_swelling ≤ 3) := by
  obtain ⟨h5, h20⟩ := hv.wg_start_mem hp
  refine ⟨r.wg_start_draw, h5, h20, ?_⟩
  intro d hd
  rw [generate_daily_getD base r hd default]
  have hsw : (recordAt base r d).symptoms.symptom_swelling = swellingAt base r d := rfl
  rw [hsw, swellingAt_hr base r hp d]
  constructor
  · intro hle
    rw [if_pos hle]
    exact hv.swelling_high_mem d
  · intro hlt
    rw [if_neg (Nat.not_le.mpr hlt)]
    exact hv.swelling_base_mem d

/-- Witness: C4 instantiated at the concrete high-risk patient
`hrBase`/`stdRand`. -/
theorem high_risk_swelling_spec_witness :
    ∃ t, 5 ≤ t ∧ t ≤ 20 ∧ ∀ d, d < DAYS_OF_DATA →
      (t ≤ d →
        4 ≤ ((generate_daily_time_series hrBase stdRand).getD d
              default).symptoms.symptom_swelling ∧
        ((generate_daily_time_series hrBase stdRand).getD d
            default).symptoms.symptom_swelling ≤ 8) ∧
      (d < t →
        1 ≤ ((generate_daily_time_series hrBase stdRand).getD d
              default).symptoms.symptom_swelling ∧
        ((generate_daily_time_series hrBase stdRand).getD d
            default).symptoms.symptom_swelling ≤ 3) :=
  high_risk_swelling_spec hrBase stdRand rfl (stdRand_valid _)

/-- Claim C5: the assembler yields a flat sequence of exactly
`NUM_PATIENTS * DAYS_OF_DATA` records in patient-major, day-minor order: the
record at flat index `p * DAYS_OF_DATA + d` is day `d` of patient `p`, so each
patient's 30 consecutive records carry `days_since_discharge = 0..29` in
order. -/
theorem dataset_shape_spec (genTime : ℤ) (draws : ℕ → PatientDraw) (p d : ℕ)
    (hp : p < NUM_PATIENTS) (hd : d < DAYS_OF_DATA) :
    (generate_all_patient_data genTime draws).length = NUM_PATIENTS * DAYS_OF_DATA ∧
    (generate_all_patient_data genTime draws).getD (p * DAYS_OF_DATA + d) default =
      recordAt (baseOf genTime (draws p)) (draws p).rand d ∧
    ((generate_all_patient_data genTime draws).getD
        (p * DAYS_OF_DATA + d) default).days_since_discharge = (d : ℤ) := by
  refine ⟨generate_all_length genTime draws,
    generate_all_getD genTime draws hp hd default, ?_⟩
  rw [generate_all_getD genTime draws hp hd default]
  rfl

/-- Witness: C5 instantiated at patient 0, day 0 of a concrete run. -/
theorem dataset_shape_spec_witness :
    (generate_all_patient_data 0 (fun _ => stdDraw)).length =
      NUM_PATIENTS * DAYS_OF_DATA ∧
    (generate_all_patient_data 0 (fun _ => stdDraw)).getD
        (0 * DAYS_OF_DATA + 0) default =
      recordAt (baseOf 0 stdDraw) stdDraw.rand 0 ∧
    ((generate_all_patient_data 0 (fun _ => stdDraw)).getD
        (0 * DAYS_OF_DATA + 0) default).days_since_discharge = ((0 : ℕ) : ℤ) :=
  dataset_shape_spec 0 (fun _ => stdDraw) 0 0 (by norm_num [NUM_PATIENTS])
    (by norm_num [DAYS_OF_DATA])

/-- Claim C6: every daily record of a patient carries that patient's base
record verbatim — the whole base component (patient_id, age, gender,
comorbidities, previous_readmissions, discharge_date, profile_type) equals
the patient's `base_patient_info`. -/
theorem base_fields_verbatim_spec (genTime : ℤ) (draws : ℕ → PatientDraw) (p d : ℕ)
    (hp : p < NUM_PATIENTS) (hd : d < DAYS_OF_DATA) :
    ((generate_all_patient_data genTime draws).getD
        (p * DAYS_OF_DATA + d) default).base = baseOf genTime (draws p) := by
  rw [generate_all_getD genTime draws hp hd default]
  rfl

/-- Witness: C6 instantiated at patient 1, day 2 of a concrete run. -/
theorem base_fields_verbatim_spec_witness :
    ((generate_all_patient_data 0 (fun _ => stdDraw)).getD
        (1 * DAYS_OF_DATA + 2) default).base = baseOf 0 stdDraw :=
  base_fields_verbatim_spec 0 (fun _ => stdDraw) 1 2 (by norm_num [NUM_PATIENTS])
    (by norm_num [DAYS_OF_DATA])

/-- Claim C7: for every valid patient draw, the `comorbidities` field carried
by every daily record has size at most 3, has no duplicate entries, and every
entry comes from the fixed 4-item vocabulary. -/
theorem comorbidities_spec (genTime : ℤ) (draws : ℕ → PatientDraw) (p d : ℕ)
    (hp : p < NUM_PATIENTS) (hd : d < DAYS_OF_DATA)
    (hv : ValidPatientDraw (draws p)) :
    (((generate_all_patient_data genTime draws).getD
        (p * DAYS_OF_DATA + d) default).base.comorbidities).length ≤ 3 ∧
    (((generate_all_patient_data genTime draws).getD
        (p * DAYS_OF_DATA + d) default).base.comorbidities).Nodup ∧
    ∀ x ∈ ((generate_all_patient_data genTime draws).getD
        (p * DAYS_OF_DATA + d) default).base.comorbidities,
      x ∈ COMORBIDITY_VOCAB := by
  have hc : ((generate_all_patient_data genTime draws).getD
      (p * DAYS_OF_DATA + d) default).base.comorbidities =
      sampleComorbidities (draws p).comorbid_pick (draws p).comorbid_k := by
    rw [generate_all_getD genTime draws hp hd default]
    rfl
  rw [hc]
  exact sampleComorbidities_ok _ _ hv.k_mem hv.pick_lt hv.pick_inj

/-- Witness: C7 instantiated at patient 0, day 1 of a concrete run. -/
theorem comorbidities_spec_witness :
    (((generate_all_patient_data 0 (fun _ => stdDraw)).getD
        (0 * DAYS_OF_DATA + 1) default).base.comorbidities).length ≤ 3 ∧
    (((generate_all_patient_data 0 (fun _ => stdDraw)).getD
        (0 * DAYS_OF_DATA + 1) default).base.comorbidities).Nodup ∧
    ∀ x ∈ ((generate_all_patient_data 0 (fun _ => stdDraw)).getD
        (0 * DAYS_OF_DATA + 1) default).base.comorbidities,
      x ∈ COMORBIDITY_VOCAB :=
  comorbidities_spec 0 (fun _ => stdDraw) 0 1 (by norm_num [NUM_PATIENTS])
    (by norm_num [DAYS_OF_DATA]) stdDraw_valid

/-- Claim C8: the (pre-rounding) weight series is a stateful fold: the seed is
in `[150, 250]`; each day's weight is the previous running weight plus the
baseline jitter plus, only when the weight-gain trigger is active, the extra
delta; the stored `weight` field is the rounded running weight; and the
day-to-day change lies in `[-1/2, 1/2]` without the trigger and in `[1/2, 3]`
with it. -/
theorem weight_fold_spec (base : BaseInfo) (r : PatientRand)
    (hv : ValidPatientRand base.profile_type r) (d : ℕ) (hd : d < DAYS_OF_DATA) :
    (150 ≤ r.seed_weight ∧ r.seed_weight ≤ 250) ∧
    ((generate_daily_time_series base r).getD d default).weight =
      round2 (weightAt base r d) ∧
    weightAt base r d =
      weightLast base r d + r.jitter d +
        (if wgActive base r d then r.gain_delta d else 0) ∧
    (wgActive base r d = false →
      -(1/2) ≤ weightAt base r d - weightLast base r d ∧
        weightAt base r d - weightLast base r d ≤ 1/2) ∧
    (wgActive base r d = true →
      1/2 ≤ weightAt base r d - weightLast base r d ∧
        weightAt base r d - weightLast base r d ≤ 3) := by
  have hrec := weightAt_recurrence base r d
  obtain ⟨hj1, hj2⟩ := hv.jitter_mem d
  obtain ⟨hg1, hg2⟩ := hv.gain_mem d
  refine ⟨hv.seed_mem, ?_, ?_, ?_, ?_⟩
  · rw [generate_daily_getD base r hd default]
    rfl
  · rw [hrec, dayDelta]
    ring
  · intro hwg
    rw [hrec, dayDelta, hwg]
    simp only [Bool.false_eq_true, if_false]
    constructor <;> linarith
  · intro hwg
    rw [hrec, dayDelta, hwg]
    simp only [if_true]
    constructor <;> linarith

/-- Witness: C8 instantiated at day 5 of the concrete patient
`stBase`/`stdRand`. -/
theorem weight_fold_spec_witness :
    (150 ≤ stdRand.seed_weight ∧ stdRand.seed_weight ≤ 250) ∧
    ((generate_daily_time_series stBase stdRand).getD 5 default).weight =
      round2 (weightAt stBase stdRand 5) ∧
    weightAt stBase stdRand 5 =
      weightLast stBase stdRand 5 + stdRand.jitter 5 +
        (if wgActive stBase stdRand 5 then stdRand.gain_delta 5 else 0) ∧
    (wgActive stBase stdRand 5 = false →
      -(1/2) ≤ weightAt stBase stdRand 5 - weightLast stBase stdRand 5 ∧
        weightAt stBase stdRand 5 - weightLast stBase stdRand 5 ≤ 1/2) ∧
    (wgActive stBase stdRand 5 = true →
      1/2 ≤ weightAt stBase stdRand 5 - weightLast stBase stdRand 5 ∧
        weightAt stBase stdRand 5 - weightLast stBase stdRand 5 ≤ 3) :=
  weight_fold_spec stBase stdRand (stdRand_valid _) 5 (by norm_num [DAYS_OF_DATA])

/-- Claim C9: when the endpoint or the API key is absent from the environment,
the program still produces the full in-memory record set, never attempts
ingestion, and exits with code 0. -/
theorem missing_config_spec (endpoint api_key : Option String) (genTime : ℤ)
    (draws : ℕ → PatientDraw) (h : endpoint = none ∨ api_key = none) :
    mainRun endpoint api_key genTime draws =
      { records := generate_all_patient_data genTime draws,
        ingestion_attempted := false, exit_code := 0 } := by
  rw [mainRun]
  rcases h with h | h <;> rw [h] <;> simp [envTruthy]

/-- Witness: C9 instantiated with an absent endpoint. -/
theorem missing_config_spec_witness :
    mainRun none (some "key") 0 (fun _ => stdDraw) =
      { records := generate_all_patient_data 0 (fun _ => stdDraw),
        ingestion_attempted := false, exit_code := 0 } :=
  missing_config_spec none (some "key") 0 (fun _ => stdDraw) (Or.inl rfl)

/-- Claim C10: for every patient whose profile is not non-adherent,
`medication_adherence` is true on all 30 days, and `consecutive_missed_meds`
is therefore 0 in every record. -/
theorem non_na_adherence_spec (base : BaseInfo) (r : PatientRand)
    (hp : base.profile_type ≠ .non_adherent) (d : ℕ) (hd : d < DAYS_OF_DATA) :
    ((generate_daily_time_series base r).getD d default).medication_adherence = true ∧
    ((generate_daily_time_series base r).getD d default).consecutive_missed_meds = 0 := by
  rw [generate_daily_getD base r hd default]
  have hna : adherenceAt base r d = true := by
    simp [adherenceAt, naActive_of_ne base r hp d]
  refine ⟨hna, ?_⟩
  show (if adherenceAt base r d = false ∧ 1 ≤ d ∧ adherenceAt base r (d - 1) = false
      then 2 else 0) = 0
  simp [hna]

/-- Witness: C10 instantiated at day 4 of the concrete stable patient
`stBase`/`stdRand`. -/
theorem non_na_adherence_spec_witness :
    ((generate_daily_time_series stBase stdRand).getD 4 default).medication_adherence =
      true ∧
    ((generate_daily_time_series stBase stdRand).getD 4 default).consecutive_missed_meds =
      0 :=
  non_na_adherence_spec stBase stdRand (by decide) 4 (by norm_num [DAYS_OF_DATA])
